import Mathlib

set_option maxRecDepth 8000

/-!
Shallow embedding of `src/debug_api_auth.py`, a diagnostic CLI that inspects a
registered HTTP API entry, its managed connection and its secret configuration,
and prints a report.  External systems (SQL warehouse, connection registry,
secret store) are modelled by a `World` record that fixes the outcome of each
of the three external calls; `debug_api` is the top-level diagnosis function
and `mainRun` the `__main__` arity check around it.  Printing is modelled as a
list of strings, one entry per Python `print` call.
-/

namespace DebugApiAuth

/-- Prefix test on character lists: `startsWithL pat l` holds when `pat` is a prefix of `l`. -/
def startsWithL : List Char → List Char → Bool
  | [], _ => true
  | _ :: _, [] => false
  | p :: ps, c :: cs => p == c && startsWithL ps cs

/-- Substring test: `hasSub pat l` holds when `pat` occurs contiguously in `l`. -/
def hasSub (pat : List Char) : List Char → Bool
  | [] => startsWithL pat []
  | c :: cs => startsWithL pat (c :: cs) || hasSub pat cs

/-- Models the Python membership test `pat in s` on strings. -/
def strHas (s pat : String) : Bool :=
  hasSub pat.data s.data

/-- Python `str` interpolation of a value that may be `None` (an f-string
prints the literal text `None` for a missing value). -/
def pyStr : Option String → String
  | none => "None"
  | some s => s

/-- Python `x or d` on an optional string: `None` and `''` are falsy. -/
def pyOr (v : Option String) (d : String) : String :=
  match v with
  | none => d
  | some s => if s = "" then d else s

/-- Python truthiness of an optional string (`None` and `''` are falsy). -/
def truthyOpt : Option String → Bool
  | none => false
  | some s => !(s = "")

/-- Lookup in the row dictionary built by the Step 1 comprehension
`(columns i, row i)`; a later duplicate key overwrites an earlier one, hence
the reverse; `none` covers both a missing key and a SQL NULL cell, each of
which Python renders as `None`. -/
def dictGet (pairs : List (String × Option String)) (k : String) : Option String :=
  match pairs.reverse.lookup k with
  | some v => v
  | none => none

/-- Models `options.get(k, d)` on the connection options mapping. -/
def optGetD (opts : List (String × String)) (k d : String) : String :=
  match opts.reverse.lookup k with
  | some v => v
  | none => d

/-- Models `options.get(k)` on the connection options mapping. -/
def optGetOpt (opts : List (String × String)) (k : String) : Option String :=
  opts.reverse.lookup k

/-- The `"="*80` separator line. -/
def sep80 : String :=
  String.mk (List.replicate 80 '=')

/-- The three banner prints at the top of `debug_api`. -/
def headerLines : List String :=
  ["\n" ++ sep80, "🔍 API Authentication Debugger", sep80 ++ "\n"]

/-- Models `table_name = f'{catalog}.{schema}.api_http_registry'`. -/
def tableName (catalog schema : String) : String :=
  catalog ++ "." ++ schema ++ ".api_http_registry"

/-- The Step 1 statement text: the f-string interpolates both the table name
and the `api_id` value directly into the SQL text. -/
def buildQuery (catalog schema api_id : String) : String :=
  "\n        SELECT \n            api_id,\n            api_name,\n            connection_name,\n            host,\n            base_path,\n            api_path,\n            auth_type,\n            secret_scope,\n            http_method,\n            status\n        FROM " ++ tableName catalog schema ++ "\n        WHERE api_id = '" ++ api_id ++ "'\n    "

/-- Arguments of the `statement_execution.execute_statement` call.  The Python
call site passes `warehouse_id`, `statement` and `wait_timeout='30s'` only; it
passes no `parameters` argument, so the parameter list is empty. -/
structure ExecuteArgs where
  warehouse_id : String
  statement : String
  wait_timeout : String
  parameters : List (String × String)

/-- The exact arguments the script hands to the tabular query executor. -/
def executeArgs (api_id warehouse_id catalog schema : String) : ExecuteArgs :=
  { warehouse_id := warehouse_id
    statement := buildQuery catalog schema api_id
    wait_timeout := "30s"
    parameters := [] }

/-- Shared first part of every generated test SQL snippet (Step 5). -/
def snippetHead (conn method path : String) : String :=
  "SELECT http_request(\n  conn => '" ++ conn ++ "',\n  method => '" ++ method ++ "',\n  path => '" ++ path ++ "',\n"

/-- Shared last part of every generated test SQL snippet (Step 5). -/
def headersTail : String :=
  "  headers => map('Accept', 'application/json')\n);"

/-- The `params` clause of the `api_key` snippet. -/
def apiKeyParams (scope : String) : String :=
  "  params => map(\n    'api_key', secret('" ++ scope ++ "', 'api_key'),\n    -- Add your parameters here\n    'param1', 'value1'\n  ),\n"

/-- The `params` clause of the `bearer_token` snippet. -/
def bearerParams : String :=
  "  params => map(\n    -- Add your parameters here\n    'param1', 'value1'\n  ),\n"

/-- Step 5 snippet for `auth_type = 'none'`. -/
def noneSnippet (conn method path : String) : String :=
  snippetHead conn method path ++ headersTail

/-- Step 5 snippet for `auth_type = 'api_key'`. -/
def apiKeySnippet (conn method path scope : String) : String :=
  snippetHead conn method path ++ apiKeyParams scope ++ headersTail

/-- Step 5 snippet for `auth_type = 'bearer_token'`. -/
def bearerSnippet (conn method path : String) : String :=
  snippetHead conn method path ++ bearerParams ++ headersTail

/-- The Step 5 `if/elif` chain: which snippet (if any) is printed between the
code-fence prints.  Any other `auth_type` (including Python `None`) prints no
statement body. -/
def testSQL (auth_type : Option String) (conn method path scope : String) : Option String :=
  if auth_type = some ("none") then some (noneSnippet conn method path)
  else if auth_type = some ("api_key") then some (apiKeySnippet conn method path scope)
  else if auth_type = some ("bearer_token") then some (bearerSnippet conn method path)
  else none

/-- The Step 2 classification print for the observed `bearer_token` option. -/
def classifyPrint (bearer_token : String) : String :=
  if bearer_token = "" then "   Bearer Token: EMPTY ✅ (correct for api_key or none auth)"
  else if strHas bearer_token ("secret(") = true then
    "   Bearer Token: SECRET REFERENCE ✅ (correct for bearer_token auth)"
  else "   Bearer Token: " ++ bearer_token

/-- Models `conn.options.get(k) if conn.options else 'N/A'` rendered by an f-string. -/
def connOptDisplay (options : Option (List (String × String))) (k : String) : String :=
  match options with
  | none => "N/A"
  | some o => if o = [] then "N/A" else pyStr (optGetOpt o k)

/-- The local variable `bearer_token` of `debug_api`.  It is assigned only
inside `if conn.options:`; when the options mapping is `None` or empty the
variable stays unbound, modelled as `none`. -/
def bearerVar (options : Option (List (String × String))) : Option String :=
  match options with
  | none => none
  | some o => if o = [] then none else some (optGetD o ("bearer_token") ("NOT_SET"))

/-- The Step 3 gate: `if secret_scope and auth_type in ['api_key', 'bearer_token']`. -/
@[reducible] def step3Gate (secret_scope auth_type : Option String) : Prop :=
  truthyOpt secret_scope = true ∧
    (auth_type = some ("api_key") ∨ auth_type = some ("bearer_token"))

/-- Python `repr` of a list of (quote-free) strings, as printed by
`print(f"   Available keys: {secret_keys}")`. -/
def pyReprList (l : List String) : String :=
  "[" ++ String.intercalate (", ") (l.map (fun s => "'" ++ s ++ "'")) ++ "]"

/-- Step 3 output.  The secret store either returns the list of keys of the
scope or throws with an error message; a throw is caught here and never aborts
the run. -/
def step3Lines (secret_scope auth_type : Option String)
    (secretsResult : Except String (List String)) : List String :=
  if step3Gate secret_scope auth_type then
    ("\n🔐 Step 3: Checking secret scope...") ::
    (match secretsResult with
     | .ok secret_keys =>
        let expected_key := if auth_type = some ("bearer_token") then "bearer_token" else "api_key"
        ["✅ Secret scope exists: " ++ pyStr secret_scope,
         "   Number of secrets: " ++ toString secret_keys.length] ++
        (if expected_key ∈ secret_keys then
           ["   ✅ Expected secret key '" ++ expected_key ++ "' found"]
         else
           ["   ❌ Expected secret key '" ++ expected_key ++ "' NOT FOUND",
            "   Available keys: " ++ pyReprList secret_keys])
     | .error e =>
        ("❌ Error accessing secret scope: " ++ e) ::
        (if strHas e.toLower ("does not exist") = true then
           ["   The secret scope '" ++ pyStr secret_scope ++ "' doesn't exist!",
            "   Create it with: databricks secrets create-scope " ++ pyStr secret_scope]
         else []))
  else
    ["\n🔐 Step 3: Secret scope not needed (auth_type=" ++ pyStr auth_type ++ ")"]

/-- The expected-configuration prints at the start of each Step 6 branch. -/
def expectedShapeLines (auth_type : Option String) : List String :=
  if auth_type = some ("api_key") then
    ["\n✅ For API key auth, connection should have:",
     "   - bearer_token: EMPTY string",
     "   - Secret scope with key 'api_key'",
     "   - API key passed in params at runtime"]
  else if auth_type = some ("bearer_token") then
    ["\n✅ For bearer token auth, connection should have:",
     "   - bearer_token: secret reference",
     "   - Secret scope with key 'bearer_token'",
     "   - Token automatically included in Authorization header"]
  else if auth_type = some ("none") then
    ["\n✅ For public APIs, connection should have:",
     "   - bearer_token: EMPTY string",
     "   - No secret scope needed"]
  else []

/-- The `issues` list accumulated in Step 6 from the observed `bearer_token`. -/
def summaryIssues (auth_type : Option String) (bearer_token : String) : List String :=
  if auth_type = some ("api_key") then
    if bearer_token = "" then [] else ["Connection has non-empty bearer_token for api_key auth"]
  else if auth_type = some ("bearer_token") then
    if strHas bearer_token ("secret(") = true then []
    else ["Connection doesn't reference secret for bearer_token auth"]
  else if auth_type = some ("none") then
    if bearer_token = "" then []
    else ["Connection has non-empty bearer_token for public API (should be empty string)"]
  else []

/-- Whether the Step 6 branch for this `auth_type` reads the local variable
`bearer_token` (all three recognised auth types do). -/
@[reducible] def usesBearerVar (auth_type : Option String) : Prop :=
  auth_type = some ("api_key") ∨ auth_type = some ("bearer_token") ∨ auth_type = some ("none")

/-- The final Step 6 block: either the issues list or the confirmation. -/
def issuesBlock (issues : List String) : List String :=
  if issues = [] then ["\n✅ Configuration looks correct!"]
  else ("\n⚠️  Potential Issues Found:") :: issues.map (fun i => "   - " ++ i)

/-- The Python error raised when Step 6 reads the unbound `bearer_token`. -/
def unboundMsg : String :=
  "UnboundLocalError: local variable 'bearer_token' referenced before assignment"

/-- Step 6 (summary).  Returns the printed lines and, when the branch reads an
unbound `bearer_token`, the uncaught exception that propagates out of
`debug_api` (there is no try/except around the summary). -/
def step6Run (auth_type : Option String) (btVar : Option String) :
    List String × Option String :=
  let hdr := [sep80, "📋 Summary", sep80]
  if usesBearerVar auth_type then
    match btVar with
    | none => (hdr ++ expectedShapeLines auth_type, some unboundMsg)
    | some bt =>
        (hdr ++ expectedShapeLines auth_type ++ issuesBlock (summaryIssues auth_type bt) ++
          ["\n" ++ sep80 ++ "\n"], none)
  else
    (hdr ++ expectedShapeLines auth_type ++ issuesBlock [] ++ ["\n" ++ sep80 ++ "\n"], none)

/-- The response of a successful `execute_statement` call: the column manifest
and the (possibly `None`) 2-D result array. -/
structure StatementResponse where
  columns : List String
  rows : Option (List (List (Option String)))

/-- The connection registry object: a (possibly `None`) string-keyed options
mapping and an owner. -/
structure ConnInfo where
  options : Option (List (String × String))
  owner : String

/-- Outcomes of the three external calls for one run.  `.error` means the call
throws with the given message text. -/
structure World where
  queryResult : Except String StatementResponse
  connResult : Except String ConnInfo
  secretsResult : Except String (List String)

/-- One external call issued during a run. -/
inductive ExtCall where
  | query : ExecuteArgs → ExtCall
  | connGet : String → ExtCall
  | secretList : String → ExtCall

/-- Result of one `debug_api` run: printed lines, external calls issued, and
the uncaught exception (if any) propagating out of the function. -/
structure Run where
  output : List String
  calls : List ExtCall
  error : Option String

/-- Building `api_data` from the manifest and first row:
`{columns[i]: row[i] for i in range(len(columns))}`.  When the row is shorter
than the column list the comprehension raises `IndexError` (caught by the
Step 1 `except`); extra row cells are ignored. -/
def parseRow (columns : List String) (row : List (Option String)) :
    Option (List (String × Option String)) :=
  if columns.length ≤ row.length then some (columns.zip row) else none

/-- The whole `debug_api` function. -/
def debug_api (api_id warehouse_id catalog schema : String) (wld : World) : Run :=
  let out1 := headerLines ++ ["📊 Step 1: Checking API registry..."]
  let qcall := ExtCall.query (executeArgs api_id warehouse_id catalog schema)
  match wld.queryResult with
  | .error e =>
      { output := out1 ++ ["❌ Error querying registry: " ++ e]
        calls := [qcall], error := none }
  | .ok res =>
    match res.rows with
    | none =>
        { output := out1 ++ ["❌ API with id '" ++ api_id ++ "' not found in registry!",
                             "   Table: " ++ tableName catalog schema]
          calls := [qcall], error := none }
    | some [] =>
        { output := out1 ++ ["❌ API with id '" ++ api_id ++ "' not found in registry!",
                             "   Table: " ++ tableName catalog schema]
          calls := [qcall], error := none }
    | some (row :: _) =>
      match parseRow res.columns row with
      | none =>
          { output := out1 ++ ["❌ Error querying registry: list index out of range"]
            calls := [qcall], error := none }
      | some api_data =>
        let connection_name := dictGet api_data ("connection_name")
        let auth_type := dictGet api_data ("auth_type")
        let secret_scope := dictGet api_data ("secret_scope")
        let out2 := out1 ++
          ["✅ API found in registry:",
           "   Name: " ++ pyStr (dictGet api_data ("api_name")),
           "   Connection: " ++ pyStr connection_name,
           "   Auth Type: " ++ pyStr auth_type,
           "   Secret Scope: " ++ pyOr secret_scope ("None"),
           "   Status: " ++ pyStr (dictGet api_data ("status")),
           "   Endpoint: " ++ pyStr (dictGet api_data ("host")) ++
             pyOr (dictGet api_data ("base_path")) ("") ++ pyStr (dictGet api_data ("api_path"))]
        let out3 := out2 ++ ["\n🔌 Step 2: Checking UC HTTP Connection..."]
        let full_connection_name := catalog ++ "." ++ schema ++ "." ++ pyStr connection_name
        let ccall := ExtCall.connGet full_connection_name
        match wld.connResult with
        | .error e =>
            { output := out3 ++ ["❌ Connection not found or error: " ++ e,
                                 "   Expected name: " ++ full_connection_name]
              calls := [qcall, ccall], error := none }
        | .ok conn =>
          let btVar := bearerVar conn.options
          let out4 := out3 ++
            ["✅ Connection exists: " ++ full_connection_name,
             "   Host: " ++ connOptDisplay conn.options ("host"),
             "   Base Path: " ++ connOptDisplay conn.options ("base_path"),
             "   Owner: " ++ conn.owner] ++
            (match btVar with
             | none => []
             | some bt => [classifyPrint bt])
          let scall := if step3Gate secret_scope auth_type then
              [ExtCall.secretList (pyStr secret_scope)] else []
          let out5 := out4 ++ step3Lines secret_scope auth_type wld.secretsResult
          let out6 := out5 ++ ["\n🧪 Step 4: Testing connection...",
                               "   (Skipping - would require serving endpoints API)"]
          let out7 := out6 ++ ["\n📝 Step 5: Generated test SQL:", "\n```sql"] ++
            (match testSQL auth_type full_connection_name
                (pyStr (dictGet api_data ("http_method")))
                (pyStr (dictGet api_data ("api_path"))) (pyStr secret_scope) with
             | some s => [s]
             | none => []) ++ ["```\n"]
          let s6 := step6Run auth_type btVar
          { output := out7 ++ s6.1, calls := [qcall, ccall] ++ scall, error := s6.2 }

/-- The three usage prints of the `__main__` arity check. -/
def usageLines : List String :=
  ["Usage: python debug_api_auth.py <api_id> <warehouse_id> <catalog> <schema>",
   "\nExample:",
   "  python debug_api_auth.py abc-123 your-warehouse-id my_catalog my_schema"]

/-- Observable result of one process invocation. -/
structure MainResult where
  output : List String
  calls : List ExtCall
  exitCode : Nat

/-- The `__main__` block: exactly five `sys.argv` entries (program name plus
four positional arguments) reach `debug_api`; any other count prints the usage
text and exits 1.  An uncaught exception from `debug_api` makes the
interpreter exit with status 1; otherwise the process exits 0. -/
def mainRun (argv : List String) (wld : World) : MainResult :=
  match argv with
  | [_prog, api_id, warehouse_id, catalog, schema] =>
      let r := debug_api api_id warehouse_id catalog schema wld
      { output := r.output, calls := r.calls
        exitCode := match r.error with | some _ => 1 | none => 0 }
  | _ => { output := usageLines, calls := [], exitCode := 1 }

/-- A world exercising the Claim C1 failing input: Step 1 succeeds with an
`api_key` record, Step 2 succeeds but the connection has an empty options
mapping, so `bearer_token` is never assigned. -/
def worldC1 : World :=
  { queryResult := .ok
      { columns := ["api_id", "api_name", "connection_name", "host", "base_path",
                    "api_path", "auth_type", "secret_scope", "http_method", "status"]
        rows := some [[some ("abc"), some ("My API"), some ("conn1"), some ("https://h"),
                       some ("/v1"), some ("/go"), some ("api_key"), some ("scope1"),
                       some ("GET"), some ("active")]] }
    connResult := .ok { options := some [], owner := "me" }
    secretsResult := .ok [("api_key")] }

/-! ## Substring infrastructure -/

theorem strData_append (a b : String) : (a ++ b).data = a.data ++ b.data := by
  cases a
  cases b
  rfl

theorem str_append_assoc (a b c : String) : a ++ b ++ c = a ++ (b ++ c) := by
  cases a
  cases b
  cases c
  exact congrArg String.mk (List.append_assoc _ _ _)

theorem startsWithL_self_append (pat rest : List Char) :
    startsWithL pat (pat ++ rest) = true := by
  induction pat with
  | nil => rfl
  | cons p ps ih => simp [startsWithL, ih]

theorem hasSub_of_startsWithL (pat l : List Char) (h : startsWithL pat l = true) :
    hasSub pat l = true := by
  cases l with
  | nil => exact h
  | cons c cs => simp [hasSub, h]

theorem hasSub_here (pat rest : List Char) : hasSub pat (pat ++ rest) = true :=
  hasSub_of_startsWithL _ _ (startsWithL_self_append pat rest)

theorem hasSub_cons (pat : List Char) (c : Char) (cs : List Char)
    (h : hasSub pat cs = true) : hasSub pat (c :: cs) = true := by
  simp [hasSub, h]

theorem hasSub_append_left (pat a b : List Char) (h : hasSub pat b = true) :
    hasSub pat (a ++ b) = true := by
  induction a with
  | nil => simpa using h
  | cons c cs ih => simpa using hasSub_cons pat c (cs ++ b) ih

theorem hasSub_middle (a pat b : List Char) : hasSub pat (a ++ (pat ++ b)) = true :=
  hasSub_append_left pat a (pat ++ b) (hasSub_here pat b)

theorem strHas_mid (pre pat post : String) : strHas (pre ++ (pat ++ post)) pat = true :=
  hasSub_middle pre.data pat.data post.data

theorem startsWithL_barrier (ch : Char) (b : List Char) :
    ∀ pat : List Char, ch ∉ pat → ∀ a, startsWithL pat (a ++ ch :: b) = startsWithL pat a := by
  intro pat
  induction pat with
  | nil => intro _ a; rfl
  | cons p ps ih =>
    intro h a
    cases a with
    | nil =>
      have hpc : (p == ch) = false :=
        beq_eq_false_iff_ne.mpr (fun e => h (by rw [e]; exact List.mem_cons_self ch ps))
      show (p == ch && startsWithL ps b) = startsWithL (p :: ps) []
      simp [startsWithL, hpc]
    | cons x xs =>
      show (p == x && startsWithL ps (xs ++ ch :: b)) = (p == x && startsWithL ps xs)
      rw [ih (fun hm => h (List.mem_cons_of_mem p hm)) xs]

theorem hasSub_barrier (pat : List Char) (ch : Char) (h : ch ∉ pat) (a b : List Char) :
    hasSub pat (a ++ ch :: b) = (hasSub pat a || hasSub pat b) := by
  induction a with
  | nil =>
    show (startsWithL pat (ch :: b) || hasSub pat b) = (hasSub pat [] || hasSub pat b)
    have h1 := startsWithL_barrier ch b pat h []
    simp only [List.nil_append] at h1
    rw [h1]
    rfl
  | cons x xs ih =>
    show (startsWithL pat (x :: (xs ++ ch :: b)) || hasSub pat (xs ++ ch :: b))
       = ((startsWithL pat (x :: xs) || hasSub pat xs) || hasSub pat b)
    rw [ih, show startsWithL pat (x :: (xs ++ ch :: b)) = startsWithL pat (x :: xs) from
          startsWithL_barrier ch b pat h (x :: xs)]
    rw [Bool.or_assoc]

theorem hasSub_three_vars (pat A0 B0 C0 D0 cd md pd : List Char)
    (hq : '\'' ∉ pat)
    (hA : hasSub pat A0 = false) (hB : hasSub pat B0 = false)
    (hC : hasSub pat C0 = false) (hD : hasSub pat D0 = false)
    (hc : hasSub pat cd = false) (hm : hasSub pat md = false) (hp : hasSub pat pd = false) :
    hasSub pat (A0 ++ '\'' :: (cd ++ '\'' ::
      (B0 ++ '\'' :: (md ++ '\'' :: (C0 ++ '\'' :: (pd ++ '\'' :: D0)))))) = false := by
  rw [hasSub_barrier pat '\'' hq, hasSub_barrier pat '\'' hq, hasSub_barrier pat '\'' hq,
      hasSub_barrier pat '\'' hq, hasSub_barrier pat '\'' hq, hasSub_barrier pat '\'' hq,
      hA, hB, hC, hD, hc, hm, hp]
  rfl

set_option maxRecDepth 4000 in
theorem noneSnippet_data (c m p : String) :
    (noneSnippet c m p).data =
      ("SELECT http_request(\n  conn => ").data ++ '\'' :: (c.data ++ '\'' ::
        ((",\n  method => ").data ++ '\'' :: (m.data ++ '\'' ::
          ((",\n  path => ").data ++ '\'' :: (p.data ++ '\'' ::
            ((",\n  headers => map('Accept', 'application/json')\n);").data)))))) := by
  simp only [noneSnippet, snippetHead, headersTail, strData_append, List.append_assoc]
  rfl

set_option maxRecDepth 4000 in
theorem bearerSnippet_data (c m p : String) :
    (bearerSnippet c m p).data =
      ("SELECT http_request(\n  conn => ").data ++ '\'' :: (c.data ++ '\'' ::
        ((",\n  method => ").data ++ '\'' :: (m.data ++ '\'' ::
          ((",\n  path => ").data ++ '\'' :: (p.data ++ '\'' ::
            ((",\n  params => map(\n    -- Add your parameters here\n    'param1', 'value1'\n  ),\n  headers => map('Accept', 'application/json')\n);").data)))))) := by
  simp only [bearerSnippet, snippetHead, bearerParams, headersTail, strData_append,
    List.append_assoc]
  rfl

theorem noneSnippet_no_params (c m p : String)
    (hc : strHas c ("params") = false) (hm : strHas m ("params") = false)
    (hp : strHas p ("params") = false) :
    strHas (noneSnippet c m p) ("params") = false := by
  show hasSub (("params").data) ((noneSnippet c m p).data) = false
  rw [noneSnippet_data c m p]
  exact hasSub_three_vars _ _ _ _ _ _ _ _ (by decide) (by decide) (by decide) (by decide)
    (by decide) hc hm hp

theorem bearerSnippet_no_secret (c m p : String)
    (hc : strHas c ("secret(") = false) (hm : strHas m ("secret(") = false)
    (hp : strHas p ("secret(") = false) :
    strHas (bearerSnippet c m p) ("secret(") = false := by
  show hasSub (("secret(").data) ((bearerSnippet c m p).data) = false
  rw [bearerSnippet_data c m p]
  exact hasSub_three_vars _ _ _ _ _ _ _ _ (by decide) (by decide) (by decide) (by decide)
    (by decide) hc hm hp

theorem method_marker (c m p X : String) :
    strHas (snippetHead c m p ++ X) ("method => '" ++ m ++ "'") = true := by
  have h : snippetHead c m p ++ X =
      ("SELECT http_request(\n  conn => '" ++ c ++ "',\n  ") ++
        (("method => '" ++ m ++ "'") ++ (",\n  path => '" ++ p ++ "',\n" ++ X)) := by
    simp only [snippetHead, str_append_assoc]
    rfl
  rw [h]
  exact strHas_mid _ _ _

theorem path_marker (c m p X : String) :
    strHas (snippetHead c m p ++ X) ("path => '" ++ p ++ "'") = true := by
  have h : snippetHead c m p ++ X =
      ("SELECT http_request(\n  conn => '" ++ c ++ "',\n  method => '" ++ m ++ "',\n  ") ++
        (("path => '" ++ p ++ "'") ++ (",\n" ++ X)) := by
    simp only [snippetHead, str_append_assoc]
    rfl
  rw [h]
  exact strHas_mid _ _ _

theorem headers_marker (Y : String) :
    strHas (Y ++ headersTail) ("headers => map('Accept', 'application/json')") = true := by
  have h : Y ++ headersTail =
      (Y ++ "  ") ++ (("headers => map('Accept', 'application/json')") ++ "\n);") := by
    simp only [headersTail, str_append_assoc]
    rfl
  rw [h]
  exact strHas_mid _ _ _

theorem apiKey_secret_marker (c m p s : String) :
    strHas (apiKeySnippet c m p s) ("secret('" ++ s ++ "', 'api_key')") = true := by
  have h : apiKeySnippet c m p s =
      (snippetHead c m p ++ "  params => map(\n    'api_key', ") ++
        (("secret('" ++ s ++ "', 'api_key')") ++
          (",\n    -- Add your parameters here\n    'param1', 'value1'\n  ),\n" ++ headersTail)) := by
    simp only [apiKeySnippet, apiKeyParams, str_append_assoc]
    rfl
  rw [h]
  exact strHas_mid _ _ _

theorem apiKey_params_marker (c m p s : String) :
    strHas (apiKeySnippet c m p s) ("params => map(") = true := by
  have h : apiKeySnippet c m p s =
      (snippetHead c m p ++ "  ") ++ (("params => map(") ++
        ("\n    'api_key', secret('" ++ s ++
          "', 'api_key'),\n    -- Add your parameters here\n    'param1', 'value1'\n  ),\n" ++
          headersTail)) := by
    simp only [apiKeySnippet, apiKeyParams, str_append_assoc]
    rfl
  rw [h]
  exact strHas_mid _ _ _

theorem bearer_params_marker (c m p : String) :
    strHas (bearerSnippet c m p) ("params => map(") = true := by
  have h : bearerSnippet c m p =
      (snippetHead c m p ++ "  ") ++ (("params => map(") ++
        ("\n    -- Add your parameters here\n    'param1', 'value1'\n  ),\n" ++ headersTail)) := by
    simp only [bearerSnippet, bearerParams, str_append_assoc]
    rfl
  rw [h]
  exact strHas_mid _ _ _

theorem query_from_marker (catalog schema api_id : String) :
    strHas (buildQuery catalog schema api_id)
      ("FROM " ++ catalog ++ "." ++ schema ++ ".api_http_registry") = true := by
  have h : buildQuery catalog schema api_id =
      ("\n        SELECT \n            api_id,\n            api_name,\n            connection_name,\n            host,\n            base_path,\n            api_path,\n            auth_type,\n            secret_scope,\n            http_method,\n            status\n        ") ++
        (("FROM " ++ catalog ++ "." ++ schema ++ ".api_http_registry") ++
          ("\n        WHERE api_id = '" ++ api_id ++ "'\n    ")) := by
    simp only [buildQuery, tableName, str_append_assoc]
    rfl
  rw [h]
  exact strHas_mid _ _ _

theorem query_where_marker (catalog schema api_id : String) :
    strHas (buildQuery catalog schema api_id)
      ("WHERE api_id = '" ++ api_id ++ "'") = true := by
  have h : buildQuery catalog schema api_id =
      ("\n        SELECT \n            api_id,\n            api_name,\n            connection_name,\n            host,\n            base_path,\n            api_path,\n            auth_type,\n            secret_scope,\n            http_method,\n            status\n        FROM " ++
        catalog ++ "." ++ schema ++ ".api_http_registry" ++ "\n        ") ++
        (("WHERE api_id = '" ++ api_id ++ "'") ++ "\n    ") := by
    simp only [buildQuery, tableName, str_append_assoc]
    rfl
  rw [h]
  exact strHas_mid _ _ _

theorem str_ne_of_get (a b : String) (n : Nat) (ca cb : Char)
    (ha : a.data.get? n = some ca) (hb : b.data.get? n = some cb) (hne : ca ≠ cb) : a ≠ b := by
  intro e
  rw [e, hb] at ha
  exact hne (Option.some.inj ha).symm

theorem notfound_marker (api_id : String) :
    strHas ("❌ API with id '" ++ api_id ++ "' not found in registry!") ("not found") = true := by
  have h : "❌ API with id '" ++ api_id ++ "' not found in registry!" =
      ("❌ API with id '" ++ api_id ++ "' ") ++ (("not found") ++ " in registry!") := by
    simp only [str_append_assoc]
    rfl
  rw [h]
  exact strHas_mid _ _ _

/-! ## Shared run-level helpers -/

theorem debug_api_first_call (api_id warehouse_id catalog schema : String) (wld : World) :
    (debug_api api_id warehouse_id catalog schema wld).calls.head? =
      some (ExtCall.query (executeArgs api_id warehouse_id catalog schema)) ∧
    ("📊 Step 1: Checking API registry...") ∈
      (debug_api api_id warehouse_id catalog schema wld).output := by
  obtain ⟨qr, cr, sr⟩ := wld
  cases qr with
  | error e => exact ⟨rfl, by simp [debug_api, headerLines]⟩
  | ok res =>
    obtain ⟨cols, rows⟩ := res
    cases rows with
    | none => exact ⟨rfl, by simp [debug_api, headerLines]⟩
    | some l =>
      cases l with
      | nil => exact ⟨rfl, by simp [debug_api, headerLines]⟩
      | cons row rest =>
        cases hpr : parseRow cols row with
        | none =>
          refine ⟨?_, ?_⟩ <;> simp [debug_api, headerLines, hpr]
        | some api_data =>
          cases cr with
          | error e =>
            refine ⟨?_, ?_⟩ <;> simp [debug_api, headerLines, hpr]
          | ok conn =>
            refine ⟨?_, ?_⟩ <;> simp [debug_api, headerLines, hpr]

theorem step6_summary_mem (a btVar : Option String) : ("📋 Summary") ∈ (step6Run a btVar).1 := by
  by_cases h : usesBearerVar a
  · cases btVar with
    | none => simp [step6Run, if_pos h]
    | some bt => simp [step6Run, if_pos h]
  · simp [step6Run, if_neg h]

/-! ## Claim theorems -/

/-- Claim C1, code-bug evidence: with a successfully looked-up `api_key` record
and a connection whose options mapping is empty, Step 6 reads the never-assigned
local `bearer_token`; the `UnboundLocalError` propagates out of `debug_api` and
the process exits with status 1, not 0. -/
theorem c1_unbound_bearer_crash :
    (debug_api ("abc") ("wh") ("cat") ("sch") worldC1).error = some unboundMsg ∧
    (mainRun [("debug_api_auth.py"), ("abc"), ("wh"), ("cat"), ("sch")] worldC1).exitCode = 1 := by
  exact ⟨rfl, rfl⟩

/-- Claim C2, counterexample: for entry id `X123` the call to the query executor
carries an empty parameter list, and the entry id appears interpolated inside the
statement text itself — it is not supplied as a query parameter. -/
theorem c2_counterexample :
    (executeArgs ("X123") ("wh") ("cat") ("sch")).parameters = [] ∧
    strHas (executeArgs ("X123") ("wh") ("cat") ("sch")).statement
      ("WHERE api_id = 'X123'") = true := by
  exact ⟨rfl, query_where_marker ("cat") ("sch") ("X123")⟩

/-- Claim C2, amended: for every invocation reaching Step 1, the statement
submitted to the query executor is a read query against
`catalog.schema.api_http_registry` filtering by `api_id` whose entry id is
interpolated directly into the statement text (the call passes no query
parameters), executed with the caller-supplied warehouse id and a bounded wait
of 30 seconds; it is always the first external call of the run. -/
theorem c2_amended (api_id warehouse_id catalog schema : String) (wld : World) :
    (executeArgs api_id warehouse_id catalog schema).warehouse_id = warehouse_id ∧
    (executeArgs api_id warehouse_id catalog schema).wait_timeout = "30s" ∧
    (executeArgs api_id warehouse_id catalog schema).parameters = [] ∧
    strHas (executeArgs api_id warehouse_id catalog schema).statement
      ("FROM " ++ catalog ++ "." ++ schema ++ ".api_http_registry") = true ∧
    strHas (executeArgs api_id warehouse_id catalog schema).statement
      ("WHERE api_id = '" ++ api_id ++ "'") = true ∧
    (debug_api api_id warehouse_id catalog schema wld).calls.head? =
      some (ExtCall.query (executeArgs api_id warehouse_id catalog schema)) :=
  ⟨rfl, rfl, rfl, query_from_marker _ _ _, query_where_marker _ _ _,
    (debug_api_first_call api_id warehouse_id catalog schema wld).1⟩

/-- Claim C3: shapes of the three Step 5 snippets — the `api_key` snippet
carries a `secret(scope, 'api_key')` reference inside its `params` map, the
`bearer_token` snippet has a `params` map but no `secret(` reference anywhere,
the `none` snippet has no `params` clause at all, and all three carry the
`Accept` header with method and path taken from the registry record. -/
theorem c3_step5_sql_shapes (c m p s : String)
    (h1 : strHas c ("secret(") = false) (h2 : strHas m ("secret(") = false)
    (h3 : strHas p ("secret(") = false)
    (h4 : strHas c ("params") = false) (h5 : strHas m ("params") = false)
    (h6 : strHas p ("params") = false) :
    (testSQL (some ("api_key")) c m p s = some (apiKeySnippet c m p s) ∧
      strHas (apiKeySnippet c m p s) ("params => map(") = true ∧
      strHas (apiKeySnippet c m p s) ("secret('" ++ s ++ "', 'api_key')") = true) ∧
    (testSQL (some ("bearer_token")) c m p s = some (bearerSnippet c m p) ∧
      strHas (bearerSnippet c m p) ("params => map(") = true ∧
      strHas (bearerSnippet c m p) ("secret(") = false) ∧
    (testSQL (some ("none")) c m p s = some (noneSnippet c m p) ∧
      strHas (noneSnippet c m p) ("params") = false) ∧
    (∀ q ∈ [noneSnippet c m p, apiKeySnippet c m p s, bearerSnippet c m p],
      strHas q ("headers => map('Accept', 'application/json')") = true ∧
      strHas q ("method => '" ++ m ++ "'") = true ∧
      strHas q ("path => '" ++ p ++ "'") = true) := by
  refine ⟨⟨rfl, apiKey_params_marker c m p s, apiKey_secret_marker c m p s⟩,
          ⟨rfl, bearer_params_marker c m p, bearerSnippet_no_secret c m p h1 h2 h3⟩,
          ⟨rfl, noneSnippet_no_params c m p h4 h5 h6⟩, ?_⟩
  intro q hq
  have hq' : q = noneSnippet c m p ∨ q = apiKeySnippet c m p s ∨ q = bearerSnippet c m p := by
    simpa using hq
  rcases hq' with rfl | rfl | rfl
  · exact ⟨headers_marker (snippetHead c m p), method_marker c m p _, path_marker c m p _⟩
  · refine ⟨headers_marker (snippetHead c m p ++ apiKeyParams s), ?_, ?_⟩
    · show strHas (snippetHead c m p ++ apiKeyParams s ++ headersTail) _ = true
      rw [str_append_assoc]
      exact method_marker c m p _
    · show strHas (snippetHead c m p ++ apiKeyParams s ++ headersTail) _ = true
      rw [str_append_assoc]
      exact path_marker c m p _
  · refine ⟨headers_marker (snippetHead c m p ++ bearerParams), ?_, ?_⟩
    · show strHas (snippetHead c m p ++ bearerParams ++ headersTail) _ = true
      rw [str_append_assoc]
      exact method_marker c m p _
    · show strHas (snippetHead c m p ++ bearerParams ++ headersTail) _ = true
      rw [str_append_assoc]
      exact path_marker c m p _

/-- Claim C3 witness at concrete record values. -/
theorem c3_witness :
    strHas (apiKeySnippet ("cat.sch.c1") ("GET") ("/v1/x") ("scope1"))
      ("secret('scope1', 'api_key')") = true ∧
    strHas (noneSnippet ("cat.sch.c1") ("GET") ("/v1/x")) ("params") = false ∧
    strHas (bearerSnippet ("cat.sch.c1") ("GET") ("/v1/x")) ("secret(") = false := by
  have h := c3_step5_sql_shapes ("cat.sch.c1") ("GET") ("/v1/x") ("scope1")
    (by decide) (by decide) (by decide) (by decide) (by decide) (by decide)
  exact ⟨h.1.2.2, h.2.2.1.2, h.2.1.2.2⟩

/-- Claim C8: with exactly four positional arguments (five `argv` entries) the
run reaches Step 1 and its first external call is the registry query; with any
other argument count the program prints the usage text with an example, makes
no external call, and exits with status 1. -/
theorem c8_arity_check (wld : World) :
    (∀ prog api_id warehouse_id catalog schema : String,
      ("📊 Step 1: Checking API registry...") ∈
          (mainRun [prog, api_id, warehouse_id, catalog, schema] wld).output ∧
        (mainRun [prog, api_id, warehouse_id, catalog, schema] wld).calls.head? =
          some (ExtCall.query (executeArgs api_id warehouse_id catalog schema))) ∧
    (∀ argv : List String, argv.length ≠ 5 →
      (mainRun argv wld).output = usageLines ∧ (mainRun argv wld).calls = [] ∧
        (mainRun argv wld).exitCode = 1) := by
  constructor
  · intro prog api_id warehouse_id catalog schema
    have h := debug_api_first_call api_id warehouse_id catalog schema wld
    exact ⟨h.2, h.1⟩
  · intro argv h
    rcases argv with _ | ⟨a1, _ | ⟨a2, _ | ⟨a3, _ | ⟨a4, _ | ⟨a5, rest⟩⟩⟩⟩⟩
    · exact ⟨rfl, rfl, rfl⟩
    · exact ⟨rfl, rfl, rfl⟩
    · exact ⟨rfl, rfl, rfl⟩
    · exact ⟨rfl, rfl, rfl⟩
    · exact ⟨rfl, rfl, rfl⟩
    · cases rest with
      | nil => exact absurd rfl h
      | cons r rs => exact ⟨rfl, rfl, rfl⟩

/-- Claim C8 witness: a five-entry argv issues the query; a one-entry argv
exits 1 with the usage text and no external call. -/
theorem c8_witness :
    (mainRun [("prog"), ("a"), ("w"), ("c"), ("s")]
        ⟨.error ("boom"), .error ("x"), .ok []⟩).calls.head? =
      some (ExtCall.query (executeArgs ("a") ("w") ("c") ("s"))) ∧
    (mainRun [("prog")] ⟨.error ("boom"), .error ("x"), .ok []⟩).exitCode = 1 := by
  have h := c8_arity_check ⟨.error ("boom"), .error ("x"), .ok []⟩
  exact ⟨(h.1 ("prog") ("a") ("w") ("c") ("s")).2, (h.2 [("prog")] (by decide)).2.2⟩

/-- Claim C4: the Step 6 issues list is non-empty exactly when the observed
`bearer_token` value violates the expected shape for the auth type (non-empty
for `api_key`, missing `secret(` reference for `bearer_token` — in particular
the literal empty string, — non-empty for `none`), the summary prints the
issues list when it is non-empty and the confirmation when it is empty, and
`auth_type='none'` with `bearer_token=''` reports a correct configuration. -/
theorem c4_summary_issue_conditions (bt : String) :
    (¬ summaryIssues (some ("api_key")) bt = [] ↔ ¬ bt = "") ∧
    (¬ summaryIssues (some ("bearer_token")) bt = [] ↔ strHas bt ("secret(") = false) ∧
    (¬ summaryIssues (some ("none")) bt = [] ↔ ¬ bt = "") ∧
    summaryIssues (some ("bearer_token")) ("") =
      [("Connection doesn't reference secret for bearer_token auth")] ∧
    (∀ a : String,
      ((("\n⚠️  Potential Issues Found:") ∈ (step6Run (some a) (some bt)).1) ↔
        ¬ summaryIssues (some a) bt = []) ∧
      ((("\n✅ Configuration looks correct!") ∈ (step6Run (some a) (some bt)).1) ↔
        summaryIssues (some a) bt = []) ∧
      (∀ i ∈ summaryIssues (some a) bt, ("   - " ++ i) ∈ (step6Run (some a) (some bt)).1) ∧
      (step6Run (some a) (some bt)).2 = none) := by
  refine ⟨?_, ?_, ?_, rfl, ?_⟩
  · by_cases hb : bt = "" <;> simp [summaryIssues, hb]
  · by_cases hs : strHas bt ("secret(") = true <;> simp [summaryIssues, hs]
  · by_cases hb : bt = "" <;> simp [summaryIssues, hb]
  · intro a
    by_cases h1 : a = "api_key"
    · subst h1
      by_cases hb : bt = "" <;>
        simp [step6Run, usesBearerVar, expectedShapeLines, summaryIssues, issuesBlock, hb] <;>
        decide
    · by_cases h2 : a = "bearer_token"
      · subst h2
        by_cases hs : strHas bt ("secret(") = true <;>
          simp [step6Run, usesBearerVar, expectedShapeLines, summaryIssues, issuesBlock, hs] <;>
          decide
      · by_cases h3 : a = "none"
        · subst h3
          by_cases hb : bt = "" <;>
            simp [step6Run, usesBearerVar, expectedShapeLines, summaryIssues, issuesBlock, hb] <;>
            decide
        · simp [step6Run, usesBearerVar, expectedShapeLines, summaryIssues, issuesBlock,
            h1, h2, h3]
          decide

/-- Claim C4 witness: a non-empty non-secret token under `api_key` prints the
issues header; `none` with an empty token prints the confirmation. -/
theorem c4_witness :
    ("\n⚠️  Potential Issues Found:") ∈ (step6Run (some ("api_key")) (some ("xyz"))).1 ∧
    ("\n✅ Configuration looks correct!") ∈ (step6Run (some ("none")) (some (""))).1 := by
  have h := c4_summary_issue_conditions ("xyz")
  have h0 := c4_summary_issue_conditions ("")
  exact ⟨((h.2.2.2.2 ("api_key")).1).mpr (by decide), ((h0.2.2.2.2 ("none")).2.1).mpr (by decide)⟩

/-- Claim C7: Step 3 runs (prints its checking header first) exactly when the
gate holds — `secret_scope` truthy and `auth_type` one of `api_key` and
`bearer_token`; otherwise the single skip line naming the current auth type is
printed.  When it runs, the expected key is `api_key` for `api_key` auth and
`bearer_token` for `bearer_token` auth, a missing expected key prints the NOT
FOUND marker plus the available keys, and a present one prints the found
marker. -/
theorem c7_step3_gating (secret_scope auth_type : Option String) (keys : List String)
    (r : Except String (List String)) :
    ((step3Lines secret_scope auth_type r).head? =
        some ("\n🔐 Step 3: Checking secret scope...") ↔ step3Gate secret_scope auth_type) ∧
    (¬ step3Gate secret_scope auth_type →
      step3Lines secret_scope auth_type r =
        ["\n🔐 Step 3: Secret scope not needed (auth_type=" ++ pyStr auth_type ++ ")"]) ∧
    (truthyOpt secret_scope = true → auth_type = some ("api_key") →
      ((("api_key") : String) ∉ keys →
        ("   ❌ Expected secret key 'api_key' NOT FOUND") ∈
            step3Lines secret_scope auth_type (.ok keys) ∧
          ("   Available keys: " ++ pyReprList keys) ∈
            step3Lines secret_scope auth_type (.ok keys)) ∧
      ((("api_key") : String) ∈ keys →
        ("   ✅ Expected secret key 'api_key' found") ∈
          step3Lines secret_scope auth_type (.ok keys))) ∧
    (truthyOpt secret_scope = true → auth_type = some ("bearer_token") →
      ((("bearer_token") : String) ∉ keys →
        ("   ❌ Expected secret key 'bearer_token' NOT FOUND") ∈
            step3Lines secret_scope auth_type (.ok keys) ∧
          ("   Available keys: " ++ pyReprList keys) ∈
            step3Lines secret_scope auth_type (.ok keys)) ∧
      ((("bearer_token") : String) ∈ keys →
        ("   ✅ Expected secret key 'bearer_token' found") ∈
          step3Lines secret_scope auth_type (.ok keys))) := by
  refine ⟨?_, ?_, ?_, ?_⟩
  · by_cases hg : step3Gate secret_scope auth_type
    · simp only [step3Lines, if_pos hg, List.head?_cons, true_iff]
      exact hg
    · have hne : ("\n🔐 Step 3: Secret scope not needed (auth_type=" ++ pyStr auth_type ++ ")") ≠
          ("\n🔐 Step 3: Checking secret scope...") :=
        str_ne_of_get _ _ 11 'S' 'C' rfl rfl (by decide)
      simp [step3Lines, if_neg hg, hg, hne]
  · intro hg
    simp [step3Lines, if_neg hg]
  · intro ht ha
    subst ha
    constructor
    · intro hk
      constructor <;> simp [step3Lines, step3Gate, ht, hk]
    · intro hk
      simp [step3Lines, step3Gate, ht, hk]
  · intro ht ha
    subst ha
    constructor
    · intro hk
      constructor <;> simp [step3Lines, step3Gate, ht, hk]
    · intro hk
      simp [step3Lines, step3Gate, ht, hk]

/-- Claim C7 witness: `api_key` auth with scope `scope1` and a key list missing
`api_key` prints the NOT FOUND marker; no scope with `none` auth skips. -/
theorem c7_witness :
    ("   ❌ Expected secret key 'api_key' NOT FOUND") ∈
        step3Lines (some ("scope1")) (some ("api_key")) (.ok [("other")]) ∧
    step3Lines (none) (some ("none")) (.ok []) =
      ["\n🔐 Step 3: Secret scope not needed (auth_type=none)"] := by
  have h := c7_step3_gating (some ("scope1")) (some ("api_key")) [("other")] (.ok [("other")])
  have h0 := c7_step3_gating (none) (some ("none")) [] (.ok [])
  exact ⟨((h.2.2.1 (by decide) rfl).1 (by decide)).1, h0.2.1 (by decide)⟩

/-- Claim C9: an auth type outside the three recognised values yields no Step 5
statement body, no Step 6 expected-shape lines, an empty issues list, and a
summary that reports the configuration looks correct (whether or not the
`bearer_token` variable was assigned). -/
theorem c9_unknown_auth_type (auth_type : Option String)
    (h1 : auth_type ≠ some ("none")) (h2 : auth_type ≠ some ("api_key"))
    (h3 : auth_type ≠ some ("bearer_token")) (c m p s : String) (btVar : Option String) :
    testSQL auth_type c m p s = none ∧
    expectedShapeLines auth_type = [] ∧
    (∀ bt, summaryIssues auth_type bt = []) ∧
    (step6Run auth_type btVar).1 =
      [sep80, "📋 Summary", sep80, "\n✅ Configuration looks correct!",
       "\n" ++ sep80 ++ "\n"] ∧
    (step6Run auth_type btVar).2 = none := by
  refine ⟨?_, ?_, ?_, ?_, ?_⟩ <;>
    simp [testSQL, expectedShapeLines, summaryIssues, step6Run, usesBearerVar, issuesBlock,
      h1, h2, h3]

/-- Claim C9 witness at `auth_type = 'oauth'`. -/
theorem c9_witness :
    testSQL (some ("oauth")) ("c") ("GET") ("/p") ("s") = none ∧
    (step6Run (some ("oauth")) (none)).1 =
      [sep80, "📋 Summary", sep80, "\n✅ Configuration looks correct!",
       "\n" ++ sep80 ++ "\n"] := by
  have h := c9_unknown_auth_type (some ("oauth")) (by decide) (by decide) (by decide)
    ("c") ("GET") ("/p") ("s") (none)
  exact ⟨h.1, h.2.2.2.1⟩

/-- Claim C10: a present but `bearer_token`-less options mapping makes the
classified value the literal `NOT_SET`, Step 2 prints it verbatim, and the
Step 6 comparison records exactly one issue for each of the three auth types. -/
theorem c10_not_set_fallback (opts : List (String × String))
    (h1 : opts ≠ []) (h2 : opts.reverse.lookup ("bearer_token") = none) :
    bearerVar (some opts) = some ("NOT_SET") ∧
    classifyPrint ("NOT_SET") = "   Bearer Token: NOT_SET" ∧
    summaryIssues (some ("api_key")) ("NOT_SET") =
      [("Connection has non-empty bearer_token for api_key auth")] ∧
    summaryIssues (some ("bearer_token")) ("NOT_SET") =
      [("Connection doesn't reference secret for bearer_token auth")] ∧
    summaryIssues (some ("none")) ("NOT_SET") =
      [("Connection has non-empty bearer_token for public API (should be empty string)")] := by
  refine ⟨?_, rfl, rfl, rfl, rfl⟩
  simp [bearerVar, optGetD, h1, h2]

/-- Claim C5: a throw from the secret listing is caught — the error text is
printed, the scope-creation guidance appears exactly when the error text
contains "does not exist" case-insensitively, and the run still prints the
Step 4, Step 5 and Summary blocks; by contrast a throw in Step 1 ends the run
at the error line. -/
theorem c5_step3_error_nonfatal (api_id warehouse_id catalog schema : String)
    (secret_scope auth_type : Option String) (e : String)
    (hg : step3Gate secret_scope auth_type) :
    (step3Lines secret_scope auth_type (.error e) =
      ["\n🔐 Step 3: Checking secret scope...", "❌ Error accessing secret scope: " ++ e] ++
        (if strHas e.toLower ("does not exist") = true then
          ["   The secret scope '" ++ pyStr secret_scope ++ "' doesn't exist!",
           "   Create it with: databricks secrets create-scope " ++ pyStr secret_scope]
         else [])) ∧
    ((("   The secret scope '" ++ pyStr secret_scope ++ "' doesn't exist!") ∈
        step3Lines secret_scope auth_type (.error e)) ↔
      strHas e.toLower ("does not exist") = true) ∧
    (∀ (cols : List String) (row : List (Option String)) rest api_data (conn : ConnInfo),
      parseRow cols row = some api_data →
      step3Gate (dictGet api_data ("secret_scope")) (dictGet api_data ("auth_type")) →
      (("❌ Error accessing secret scope: " ++ e) ∈
          (debug_api api_id warehouse_id catalog schema
            ⟨.ok ⟨cols, some (row :: rest)⟩, .ok conn, .error e⟩).output ∧
        ("\n🧪 Step 4: Testing connection...") ∈
          (debug_api api_id warehouse_id catalog schema
            ⟨.ok ⟨cols, some (row :: rest)⟩, .ok conn, .error e⟩).output ∧
        ("\n📝 Step 5: Generated test SQL:") ∈
          (debug_api api_id warehouse_id catalog schema
            ⟨.ok ⟨cols, some (row :: rest)⟩, .ok conn, .error e⟩).output ∧
        ("📋 Summary") ∈
          (debug_api api_id warehouse_id catalog schema
            ⟨.ok ⟨cols, some (row :: rest)⟩, .ok conn, .error e⟩).output)) ∧
    (∀ e1 (cr : Except String ConnInfo) (sr : Except String (List String)),
      (debug_api api_id warehouse_id catalog schema ⟨.error e1, cr, sr⟩).output =
        headerLines ++ ["📊 Step 1: Checking API registry...",
          "❌ Error querying registry: " ++ e1]) := by
  refine ⟨?_, ?_, ?_, ?_⟩
  · simp [step3Lines, if_pos hg]
  · by_cases hdoes : strHas e.toLower ("does not exist") = true
    · simp [step3Lines, if_pos hg, hdoes]
    · have hn1 : ("   The secret scope '" ++ pyStr secret_scope ++ "' doesn't exist!") ≠
          ("\n🔐 Step 3: Checking secret scope...") :=
        str_ne_of_get _ _ 0 ' ' '\n' rfl rfl (by decide)
      have hn2 : ("   The secret scope '" ++ pyStr secret_scope ++ "' doesn't exist!") ≠
          ("❌ Error accessing secret scope: " ++ e) :=
        str_ne_of_get _ _ 0 ' ' '❌' rfl rfl (by decide)
      simp [step3Lines, if_pos hg, hdoes, hn1, hn2]
  · intro cols row rest api_data conn hpr hg2
    refine ⟨?_, ?_, ?_, ?_⟩ <;>
      simp [debug_api, hpr, headerLines, step3Lines, if_pos hg2, List.mem_append,
        step6_summary_mem]
  · intro e1 cr sr
    rfl

/-- Claim C5 witness: a concrete "does not exist" failure of the secret listing
still produces the Step 4 marker, and a Step 1 failure stops the run. -/
theorem c5_witness :
    ("\n🧪 Step 4: Testing connection...") ∈
      (debug_api ("id1") ("wh") ("cat") ("sch")
        ⟨.ok ⟨["api_id", "auth_type", "secret_scope"],
              some [[some ("id1"), some ("api_key"), some ("scope1")]]⟩,
         .ok ⟨some [("host", "h")], "me"⟩,
         .error ("scope does not exist")⟩).output ∧
    (debug_api ("id1") ("wh") ("cat") ("sch")
        ⟨.error ("boom"), .ok ⟨some [("host", "h")], "me"⟩, .ok []⟩).output =
      headerLines ++ ["📊 Step 1: Checking API registry...",
        "❌ Error querying registry: boom"] := by
  have h := c5_step3_error_nonfatal ("id1") ("wh") ("cat") ("sch")
    (some ("scope1")) (some ("api_key")) ("scope does not exist") (by decide)
  exact ⟨(h.2.2.1 ["api_id", "auth_type", "secret_scope"]
      [some ("id1"), some ("api_key"), some ("scope1")] []
      [("api_id", some ("id1")), ("auth_type", some ("api_key")),
       ("secret_scope", some ("scope1"))]
      ⟨some [("host", "h")], "me"⟩ rfl (by decide)).2.1,
    h.2.2.2 ("boom") (.ok ⟨some [("host", "h")], "me"⟩) (.ok [])⟩

/-- Claim C6: an empty Step 1 result prints the "not found" lines and the run
stops there; a Step 2 failure prints the error text plus the expected
fully-qualified connection name and the run stops there. -/
theorem c6_notfound_and_conn_error (api_id warehouse_id catalog schema : String) :
    (∀ (cols : List String) (cr : Except String ConnInfo)
        (sr : Except String (List String)),
      (debug_api api_id warehouse_id catalog schema ⟨.ok ⟨cols, none⟩, cr, sr⟩).output =
          headerLines ++ ["📊 Step 1: Checking API registry...",
            "❌ API with id '" ++ api_id ++ "' not found in registry!",
            "   Table: " ++ tableName catalog schema] ∧
      (debug_api api_id warehouse_id catalog schema ⟨.ok ⟨cols, some []⟩, cr, sr⟩).output =
          headerLines ++ ["📊 Step 1: Checking API registry...",
            "❌ API with id '" ++ api_id ++ "' not found in registry!",
            "   Table: " ++ tableName catalog schema]) ∧
    strHas ("❌ API with id '" ++ api_id ++ "' not found in registry!") ("not found") = true ∧
    (∀ (cols : List String) (row : List (Option String)) rest api_data (e : String)
        (sr : Except String (List String)),
      parseRow cols row = some api_data →
      (debug_api api_id warehouse_id catalog schema
          ⟨.ok ⟨cols, some (row :: rest)⟩, .error e, sr⟩).output =
        headerLines ++ ["📊 Step 1: Checking API registry...",
          "✅ API found in registry:",
          "   Name: " ++ pyStr (dictGet api_data ("api_name")),
          "   Connection: " ++ pyStr (dictGet api_data ("connection_name")),
          "   Auth Type: " ++ pyStr (dictGet api_data ("auth_type")),
          "   Secret Scope: " ++ pyOr (dictGet api_data ("secret_scope")) ("None"),
          "   Status: " ++ pyStr (dictGet api_data ("status")),
          "   Endpoint: " ++ pyStr (dictGet api_data ("host")) ++
            pyOr (dictGet api_data ("base_path")) ("") ++ pyStr (dictGet api_data ("api_path")),
          "\n🔌 Step 2: Checking UC HTTP Connection...",
          "❌ Connection not found or error: " ++ e,
          "   Expected name: " ++
            (catalog ++ "." ++ schema ++ "." ++ pyStr (dictGet api_data ("connection_name")))]) := by
  refine ⟨?_, notfound_marker api_id, ?_⟩
  · intro cols cr sr
    exact ⟨rfl, rfl⟩
  · intro cols row rest api_data e sr hpr
    simp [debug_api, hpr, headerLines]

/-- Claim C6 witness: a concrete empty result and a concrete failing
connection lookup. -/
theorem c6_witness :
    (debug_api ("id1") ("wh") ("cat") ("sch")
        ⟨.ok ⟨["api_id"], some []⟩, .error ("nope"), .ok []⟩).output =
      headerLines ++ ["📊 Step 1: Checking API registry...",
        "❌ API with id 'id1' not found in registry!",
        "   Table: cat.sch.api_http_registry"] ∧
    (debug_api ("id1") ("wh") ("cat") ("sch")
        ⟨.ok ⟨["api_id"], some [[some ("id1")]]⟩, .error ("nope"), .ok []⟩).output =
      headerLines ++ ["📊 Step 1: Checking API registry...",
        "✅ API found in registry:",
        "   Name: None", "   Connection: None", "   Auth Type: None",
        "   Secret Scope: None", "   Status: None", "   Endpoint: NoneNone",
        "\n🔌 Step 2: Checking UC HTTP Connection...",
        "❌ Connection not found or error: nope",
        "   Expected name: cat.sch.None"] := by
  have h := c6_notfound_and_conn_error ("id1") ("wh") ("cat") ("sch")
  exact ⟨(h.1 ["api_id"] (.error ("nope")) (.ok [])).2,
    h.2.2 ["api_id"] [some ("id1")] [] [("api_id", some ("id1"))] ("nope") (.ok []) rfl⟩

/-- Claim C10 witness: an options mapping holding only a host key. -/
theorem c10_witness :
    bearerVar (some [("host", "h")]) = some ("NOT_SET") :=
  (c10_not_set_fallback [("host", "h")] (by decide) (by decide)).1

end DebugApiAuth
